import Mathlib

/-!
Verification of the dcs-retribution campaign core: the turn state machine in
`game/game.py` and the procedural ground-installation placement in
`theater/start_generator.py`. Python floats are embedded as exact rationals,
the random draws consumed by the code are passed in explicitly, and external
collaborators (unit-group generators, income, mission planners) appear as
parameters of `Option` or function type.

The file is organised as definitions first (the embedding of the data model
and the operations), then the theorems about them.
-/

namespace DCSRetribution

/-! ## Data model -/

/-- A 2D map coordinate, embedding `dcs.mapping.Point`. Coordinates are exact
rationals in place of Python floats. -/
structure Point where
  x : ℚ
  y : ℚ
deriving DecidableEq

/-- Squared Euclidean distance between two points. The source compares
`a.distance_to_point(b) < r` with a nonnegative radius `r`; since the true
distance is the square root of `distSq`, that comparison is equivalent to
`distSq a b < r * r`, which is how every distance test is embedded here. -/
def distSq (a b : Point) : ℚ :=
  (a.x - b.x) * (a.x - b.x) + (a.y - b.y) * (a.y - b.y)

/-- A generated unit group. Its contents come from external generators
(`gen.sam`, `gen.fleet`, ...) and are irrelevant to the placement logic, so it
is embedded as an opaque identifier. -/
structure UnitGroup where
  gid : Nat
deriving DecidableEq

/-- Which ground-object class was constructed (`SamGroundObject`,
`BuildingGroundObject`, `ShipGroundObject`, `MissileSiteGroundObject`,
`CarrierGroundObject`, `LhaGroundObject`). -/
inductive GroundObjectKind
  | sam
  | building
  | ship
  | missile
  | carrier
  | lha
deriving DecidableEq

/-- A theater ground object (installation): its class, its position and its
list of unit groups. Names and id pairs are bookkeeping that no claim touches
and are omitted. -/
structure TheaterGroundObject where
  kind : GroundObjectKind
  position : Point
  groups : List UnitGroup
deriving DecidableEq

/-- A control point (base). `captured = true` means player-owned.
`is_carrier` / `is_lha` embed the Python properties derived from `cptype`. -/
structure ControlPoint where
  position : Point
  captured : Bool
  strength : ℚ
  importance : ℚ
  is_carrier : Bool
  is_lha : Bool
  ground_objects : List TheaterGroundObject
deriving DecidableEq

/-- The turn state enum of `game/game.py` (`TurnState`). -/
inductive TurnState
  | WIN
  | LOSS
  | CONTINUE
deriving DecidableEq

/-- `Game.check_win_loss` (game/game.py:259-265): build the set of `captured`
flags over all control points; if `True` is not among them return LOSS, else
if `False` is not among them return WIN, else CONTINUE. The Python set
comprehension is embedded as membership in the mapped list, which tests
exactly the same thing. -/
def check_win_loss (cps : List ControlPoint) : TurnState :=
  let captured_states := cps.map (fun cp => cp.captured)
  if true ∉ captured_states then TurnState.LOSS
  else if false ∉ captured_states then TurnState.WIN
  else TurnState.CONTINUE

/-! ## Turn strength recovery (`Game.pass_turn`) -/

/-- Amount of strength player bases recover for the turn (game/game.py:61). -/
def PLAYER_BASE_STRENGTH_RECOVERY : ℚ := 1/5

/-- Modelled from the spec: `Base.affect_strength` lives in the theater
package, which is not among the provided sources. The spec states that gains
are "clamped to 1.0", losses are "clamped to 0.0", and
`strength: float ∈ [0,1]`; so the new strength is the old one plus the delta,
clamped into [0, 1]. -/
def affect_strength (strength delta : ℚ) : ℚ :=
  max 0 (min 1 (strength + delta))

/-- The turn-increment and strength-recovery portion of `Game.pass_turn`
(game/game.py:232-250): increment the turn counter; then, if `no_action` is
false and the new counter exceeds 1, every player-owned control point gains
`PLAYER_BASE_STRENGTH_RECOVERY`; otherwise every player-owned control point
that is neither a carrier nor an LHA loses the same amount.
`theater.player_points()` is not among the provided sources and is modelled
from the spec: the player-owned points are exactly those with
`captured = true`. The calls to `process_turn`, income collection, weather
generation, `initialize_turn` and autosave are external collaborators that do
not touch player strength and are omitted. -/
def pass_turn_strength (turn : Nat) (no_action : Bool) (cps : List ControlPoint) :
    Nat × List ControlPoint :=
  let turn' := turn + 1
  if no_action = false ∧ turn' > 1 then
    (turn', cps.map fun cp =>
      if cp.captured = true then
        { cp with strength := affect_strength cp.strength PLAYER_BASE_STRENGTH_RECOVERY }
      else cp)
  else
    (turn', cps.map fun cp =>
      if cp.captured = true ∧ cp.is_carrier = false ∧ cp.is_lha = false then
        { cp with strength := affect_strength cp.strength (-PLAYER_BASE_STRENGTH_RECOVERY) }
      else cp)

/-- Concrete player-owned land control point at strength 0.9 used by the
witnesses (the spec's own worked example). -/
def cpStrengthEx : ControlPoint :=
  { position := ⟨0, 0⟩, captured := true, strength := 9/10, importance := 1,
    is_carrier := false, is_lha := false, ground_objects := [] }

/-- Concrete player-owned carrier control point at strength 0.5 used by the
C9 witness. -/
def cpCarrierEx : ControlPoint :=
  { position := ⟨0, 0⟩, captured := true, strength := 1/2, importance := 1,
    is_carrier := true, is_lha := false, ground_objects := [] }

/-! ## Installation placement (`find_location`, theater/start_generator.py:449-507)

The random draws `near.random_point_within(max_range, min_range)` are embedded
as an explicit stream `draws : Nat → Point` consumed in order, and the float
trigonometry of `Point.point_from_heading` (external `dcs.mapping`) appears as
an abstract function `pfh : Point → Nat → Point` giving the point 2500 units
away at a given heading. -/

/-- The conflict theater: its control points plus the terrain membership tests
`is_on_land` / `is_in_sea` (polygon tests living outside the provided sources,
embedded as abstract predicates). -/
structure Theater where
  controlpoints : List ControlPoint
  is_on_land : Point → Bool
  is_in_sea : Point → Bool

/-- The probe headings `range(0, 360, 45)` of the clearance loop. -/
def probe_headings : List Nat := [0, 45, 90, 135, 180, 225, 270, 315]

/-- First acceptance test: the candidate is kept iff `on_ground` and the point
is on land, or not `on_ground` and the point is in sea
(start_generator.py:470-473). -/
def terrain_matches (on_ground : Bool) (theater : Theater) (p : Point) : Bool :=
  (on_ground && theater.is_on_land p) || (!on_ground && theater.is_in_sea p)

/-- Clearance probe (start_generator.py:476-483): for each of the 8 compass
headings, the point 2500 units away must not violate the requested terrain
kind; any violation rejects the candidate (the loop's `break` is the
short-circuit of `List.all`). -/
def clearance_ok (on_ground : Bool) (theater : Theater)
    (pfh : Point → Nat → Point) (p : Point) : Bool :=
  probe_headings.all fun angle =>
    !(on_ground && !theater.is_on_land (pfh p angle)) &&
      !(!on_ground && !theater.is_in_sea (pfh p angle))

/-- Separation from the `others` list (start_generator.py:484-488): reject if
any element's position is strictly within 10000 units of the candidate. -/
def others_ok (others : List TheaterGroundObject) (p : Point) : Bool :=
  others.all fun other => !decide (distSq other.position p < 10000 * 10000)

/-- Separation from foreign control points (start_generator.py:490-503).
The Python loop breaks out as soon as `is_base_defense` holds, skips control
points whose position equals `near`, and otherwise rejects the candidate when
the control point is strictly within 30000 units or one of its ground objects
is strictly within 10000 units; once the candidate is rejected the remaining
iterations only `break`, so the loop computes exactly this conjunction. -/
def control_points_ok (is_base_defense : Bool) (near : Point)
    (cps : List ControlPoint) (p : Point) : Bool :=
  is_base_defense ||
    cps.all fun cp =>
      if cp.position = near then true
      else
        !decide (distSq cp.position p < 30000 * 30000) &&
          cp.ground_objects.all fun go =>
            !decide (distSq go.position p < 10000 * 10000)

/-- One loop iteration of `find_location`: the candidate survives iff it
passes the terrain test, the clearance probe, the `others` separation and the
control-point separation, in this order. -/
def candidate_ok (on_ground : Bool) (near : Point) (theater : Theater)
    (pfh : Point → Nat → Point) (others : List TheaterGroundObject)
    (is_base_defense : Bool) (p : Point) : Bool :=
  terrain_matches on_ground theater p &&
    clearance_ok on_ground theater pfh p &&
    others_ok others p &&
    control_points_ok is_base_defense near theater.controlpoints p

/-- The attempt loop of `find_location`: try `fuel` more draws starting at
draw index `k`, returning the first surviving candidate. At the top of every
Python iteration `point` is `None` (each failing check resets it), so each
iteration tests its fresh draw independently. -/
def find_location_aux (on_ground : Bool) (near : Point) (theater : Theater)
    (pfh : Point → Nat → Point) (others : List TheaterGroundObject)
    (is_base_defense : Bool) (draws : Nat → Point) : Nat → Nat → Option Point
  | 0, _ => none
  | fuel + 1, k =>
    if candidate_ok on_ground near theater pfh others is_base_defense (draws k) = true then
      some (draws k)
    else
      find_location_aux on_ground near theater pfh others is_base_defense draws fuel (k + 1)

set_option linter.unusedVariables false in
/-- `find_location` (start_generator.py:449-507): 300 rejection-sampling
attempts. `min_range` and `max_range` only parametrize the random annulus draw
`near.random_point_within(max_range, min_range)`, which is embedded as the
explicit stream `draws`. -/
def find_location (on_ground : Bool) (near : Point) (theater : Theater)
    (min_range max_range : ℚ) (others : List TheaterGroundObject)
    (is_base_defense : Bool) (pfh : Point → Nat → Point)
    (draws : Nat → Point) : Option Point :=
  find_location_aux on_ground near theater pfh others is_base_defense draws 300 0

/-- All-land theater with no control points, used by the placement
witnesses. -/
def landTheaterEx : Theater :=
  { controlpoints := [], is_on_land := fun _ => true, is_in_sea := fun _ => false }

/-- All-sea theater with no control points, used by the placement
witnesses. -/
def seaTheaterEx : Theater :=
  { controlpoints := [], is_on_land := fun _ => false, is_in_sea := fun _ => true }

/-! ## Red airbase population (`GameGenerator.populate_red_airbase`) -/

/-- The guard of `GameGenerator.populate_red_airbase`
(start_generator.py:138-141): a `ValueError` is raised iff the Python chained
comparison `IMPORTANCE_HIGH <= control_point.importance <= IMPORTANCE_LOW`
holds, that is iff `high ≤ importance` and `importance ≤ low`. The constants
`IMPORTANCE_LOW` and `IMPORTANCE_HIGH` are imported from
`theater.conflicttheater`, which is not among the provided sources, so the
bounds are parameters here; per their names and the guard's own error message
("CP importance must be between {IMPORTANCE_LOW} and {IMPORTANCE_HIGH}") the
low bound is below the high bound. -/
def populate_red_airbase_raises (low high importance : ℚ) : Bool :=
  decide (high ≤ importance) && decide (importance ≤ low)

/-- The check the spec asks for: abort iff the importance lies outside the
configured bounds. Stated from the spec's words for comparison with the
source guard `populate_red_airbase_raises`. -/
def importance_out_of_bounds (low high importance : ℚ) : Bool :=
  !(decide (low ≤ importance) && decide (importance ≤ high))

/-! ## Carrier / LHA generation and theater removal
(start_generator.py:324-371, 400-425) -/

/-- `CarrierGroundObjectGenerator.generate` (start_generator.py:325-346),
after the base-class `generate` (which always returns `True`) has run and
left the control point's ground-object list at `gos`. The external
`generate_carrier_group` result is the parameter `group`. Returns the boolean
returned to `GroundObjectGenerator.generate` together with the new
ground-object list: if the faction has no carrier names the function returns
`False` at once; otherwise a `CarrierGroundObject` is created, its `groups`
list holds the generated group when there is one and stays empty otherwise,
the object is appended unconditionally and the function returns `True`. -/
def carrier_generator_generate (carrier_names : List String)
    (group : Option UnitGroup) (gpos : Point)
    (gos : List TheaterGroundObject) : Bool × List TheaterGroundObject :=
  if carrier_names = [] then (false, gos)
  else
    let g : TheaterGroundObject :=
      { kind := GroundObjectKind.carrier, position := gpos,
        groups := match group with
          | some gr => [gr]
          | none => [] }
    (true, gos ++ [g])

/-- `LhaGroundObjectGenerator.generate` (start_generator.py:350-371),
structurally identical to the carrier case with the faction's
`helicopter_carrier_names` and `generate_lha_group`. -/
def lha_generator_generate (lha_names : List String)
    (group : Option UnitGroup) (gpos : Point)
    (gos : List TheaterGroundObject) : Bool × List TheaterGroundObject :=
  if lha_names = [] then (false, gos)
  else
    let g : TheaterGroundObject :=
      { kind := GroundObjectKind.lha, position := gpos,
        groups := match group with
          | some gr => [gr]
          | none => [] }
    (true, gos ++ [g])

/-- `GroundObjectGenerator.generate` (start_generator.py:406-412): iterate
over a copy of the control-point list and remove from the theater every
control point whose per-point generator returned `False`. For a list of
distinct control points `list.remove` on each failing element is exactly the
filter by the generator verdict. -/
def ground_object_generator_generate (genResult : ControlPoint → Bool)
    (cps : List ControlPoint) : List ControlPoint :=
  cps.filter genResult

/-! ## Per-installation placement
(`generate_aa_site` / `generate_ship` / `generate_missile_site`,
start_generator.py:249-321) -/

/-- `ControlPointGroundObjectGenerator.generate_aa_site`
(start_generator.py:249-267): `point` is the `find_location` result and
`group` the external `generate_anti_air_group` result. When no point is found
the function logs and returns without touching the list; otherwise the
`SamGroundObject` receives the group as its only element when there is one,
and is appended to the control point's ground objects in either case. -/
def generate_aa_site (point : Option Point) (group : Option UnitGroup)
    (gos : List TheaterGroundObject) : List TheaterGroundObject :=
  match point with
  | none => gos
  | some position =>
    let g : TheaterGroundObject :=
      { kind := GroundObjectKind.sam, position := position, groups := [] }
    let g := match group with
      | some gr => { g with groups := [gr] }
      | none => g
    gos ++ [g]

/-- `ControlPointGroundObjectGenerator.generate_ship`
(start_generator.py:281-298): when no point is found the function returns
without touching the list; otherwise the append of the `ShipGroundObject` to
the control point's ground objects sits inside `if group is not None:`, so a
ship whose group generator yields nothing is not appended at all. -/
def generate_ship (point : Option Point) (group : Option UnitGroup)
    (gos : List TheaterGroundObject) : List TheaterGroundObject :=
  match point with
  | none => gos
  | some position =>
    match group with
    | some gr =>
      gos ++ [{ kind := GroundObjectKind.ship, position := position, groups := [gr] }]
    | none => gos

/-- `ControlPointGroundObjectGenerator.generate_missile_site`
(start_generator.py:304-321): same shape as `generate_ship`, the append sits
inside `if group is not None:`. -/
def generate_missile_site (point : Option Point) (group : Option UnitGroup)
    (gos : List TheaterGroundObject) : List TheaterGroundObject :=
  match point with
  | none => gos
  | some position =>
    match group with
    | some gr =>
      gos ++ [{ kind := GroundObjectKind.missile, position := position, groups := [gr] }]
    | none => gos

/-! ## Airbase defense group content (`generate_airbase_defense_group`,
start_generator.py:428-442) -/

/-- Which external generator `generate_airbase_defense_group` dispatches to:
`generate_armor_group`, `generate_anti_air_group` (SAM), or
`generate_shorad_group`. -/
inductive DefenseGroupKind
  | armor
  | sam
  | shorad
deriving DecidableEq

/-- `generate_airbase_defense_group` (start_generator.py:431-438), with the
two random draws made explicit: `draw01` is `random.randint(0, 1)`
(evaluated only when `airbase_defense_group_id == 1`, by Python's
short-circuit `and`) and `draw02` is `random.randint(0, 2)`. Index 0 yields
armor; index 1 with a zero coin yields SAM; otherwise the control falls
through to the SHORAD test `random.randint(0, 2) == 1`, else armor. -/
def generate_airbase_defense_group (airbase_defense_group_id : Nat)
    (draw01 draw02 : Nat) : DefenseGroupKind :=
  if airbase_defense_group_id = 0 then DefenseGroupKind.armor
  else if airbase_defense_group_id = 1 ∧ draw01 = 0 then DefenseGroupKind.sam
  else if draw02 = 1 then DefenseGroupKind.shorad
  else DefenseGroupKind.armor

/-! ## Culling points (`Game.compute_conflicts_position`,
game/game.py:375-432) -/

/-- An ATO package: its target position and whether its primary task is
BARCAP (the one flight type the culling loop skips). -/
structure Package where
  target_position : Point
  is_barcap : Bool
deriving DecidableEq

/-- `sys.maxsize` on a 64-bit platform, the initial `min_distance`. -/
def sys_maxsize : ℚ := 9223372036854775807

/-- Modelled from the spec: `theater.player_points()` is not among the
provided sources; the spec's data model says `captured = true` iff the point
is player-owned. -/
def player_points (cps : List ControlPoint) : List ControlPoint :=
  cps.filter fun cp => cp.captured

/-- Modelled from the spec: `theater.enemy_points()`, the complement of
`player_points`. -/
def enemy_points (cps : List ControlPoint) : List ControlPoint :=
  cps.filter fun cp => !cp.captured

/-- The pair selected by the nested loop of `compute_conflicts_position`
(game/game.py:399-411): for each player point in order, scan the enemy points
for the first one at distance below `sys.maxsize` (the `min_distance` never
changes before the inner `break` fires); the first such pair stops both
loops. -/
def find_close_pair (player enemy : List ControlPoint) :
    Option (ControlPoint × ControlPoint) :=
  match player with
  | [] => none
  | cp :: rest =>
    match enemy.find? (fun cp2 =>
        decide (distSq cp.position cp2.position < sys_maxsize * sys_maxsize)) with
    | some cp2 => some (cp, cp2)
    | none => find_close_pair rest enemy

/-- The points the nearest-opposing-bases fallback appends: the two base
positions (appended inside the inner loop) followed by their midpoint
`cpoint` (appended after both loops), or nothing when no pair was found. -/
def nearest_pair_points (player enemy : List ControlPoint) : List Point :=
  match find_close_pair player enemy with
  | some (cp, cp2) =>
    [cp.position, cp2.position,
     ⟨(cp.position.x + cp2.position.x) / 2, (cp.position.y + cp2.position.y) / 2⟩]
  | none => []

/-- `Game.compute_conflicts_position` (game/game.py:375-432), returning the
list stored into `self.__culling_points`. The theater's front lines arrive as
the list `conflicts` of control-point pairs, and the external
`Conflict.frontline_position` (whose first component the code appends) as the
abstract function `frontline_position`. Order of contributions follows the
source: front-line triples, then carrier/LHA positions when
`perf_do_not_cull_carrier` is set, then (only if nothing was collected so
far) the nearest-opposing-bases fallback, then the non-BARCAP package
targets, and finally the default `(0, 0)` when the list is still empty. -/
def compute_conflicts_position (conflicts : List (ControlPoint × ControlPoint))
    (frontline_position : ControlPoint → ControlPoint → Point)
    (do_not_cull_carrier : Bool) (cps : List ControlPoint)
    (packages : List Package) : List Point :=
  let points := conflicts.flatMap fun fl =>
    [frontline_position fl.1 fl.2, fl.1.position, fl.2.position]
  let points := points ++
    (if do_not_cull_carrier then
      (cps.filter fun cp => cp.is_carrier || cp.is_lha).map fun cp => cp.position
     else [])
  let points := points ++
    (if points.isEmpty then
      nearest_pair_points (player_points cps) (enemy_points cps)
     else [])
  let points := points ++
    ((packages.filter fun pkg => !pkg.is_barcap).map fun pkg => pkg.target_position)
  if points.isEmpty then [⟨0, 0⟩] else points

/-! ## Theorems -/

/-- Claim C1, counterexample: on the empty control-point set no point has
`captured = false` (vacuously, every point is captured), yet `check_win_loss`
returns LOSS and not WIN, so the claimed biconditional "WIN iff no control
point has captured == false" fails at the empty set. -/
theorem check_win_loss_empty_cex :
    ([] : List ControlPoint).all (fun cp => cp.captured) = true ∧
    check_win_loss [] = TurnState.LOSS ∧
    check_win_loss [] ≠ TurnState.WIN := by
  refine ⟨rfl, ?_, ?_⟩ <;> decide

/-- Claim C1, amended: LOSS iff no control point has `captured = true`
(including the empty set, where the LOSS branch wins); WIN iff at least one
control point exists, every one has `captured = true`, and none has
`captured = false`; CONTINUE iff both a captured and an uncaptured control
point exist. -/
theorem check_win_loss_characterization (cps : List ControlPoint) :
    (check_win_loss cps = TurnState.LOSS ↔ ∀ cp ∈ cps, cp.captured = false) ∧
    (check_win_loss cps = TurnState.WIN ↔
      ((∃ cp ∈ cps, cp.captured = true) ∧ ∀ cp ∈ cps, cp.captured = true)) ∧
    (check_win_loss cps = TurnState.CONTINUE ↔
      ((∃ cp ∈ cps, cp.captured = true) ∧ ∃ cp ∈ cps, cp.captured = false)) := by
  have ht : true ∈ cps.map (fun cp => cp.captured) ↔ ∃ cp ∈ cps, cp.captured = true := by
    simp [List.mem_map]
  have hf : false ∈ cps.map (fun cp => cp.captured) ↔ ∃ cp ∈ cps, cp.captured = false := by
    simp [List.mem_map]
  unfold check_win_loss
  by_cases h1 : true ∈ cps.map (fun cp => cp.captured)
  · rw [if_neg (not_not_intro h1)]
    obtain ⟨cpt, hcpt, hct⟩ := ht.mp h1
    by_cases h2 : false ∈ cps.map (fun cp => cp.captured)
    · rw [if_neg (not_not_intro h2)]
      obtain ⟨cpf, hcpf, hcf⟩ := hf.mp h2
      refine ⟨iff_of_false (by decide) ?_, iff_of_false (by decide) ?_,
        iff_of_true rfl ⟨⟨cpt, hcpt, hct⟩, ⟨cpf, hcpf, hcf⟩⟩⟩
      · intro hall
        have h := hall cpt hcpt
        rw [h] at hct
        cases hct
      · rintro ⟨-, hall⟩
        have h := hall cpf hcpf
        rw [h] at hcf
        cases hcf
    · rw [if_pos h2]
      have hall : ∀ cp ∈ cps, cp.captured = true := by
        intro cp hcp
        by_contra hne
        exact h2 (hf.mpr ⟨cp, hcp, Bool.eq_false_iff.mpr hne⟩)
      refine ⟨iff_of_false (by decide) ?_, iff_of_true rfl ⟨⟨cpt, hcpt, hct⟩, hall⟩,
        iff_of_false (by decide) ?_⟩
      · intro hallf
        have h := hallf cpt hcpt
        rw [h] at hct
        cases hct
      · rintro ⟨-, cpf, hcpf, hcf⟩
        have h := hall cpf hcpf
        rw [h] at hcf
        cases hcf
  · rw [if_pos h1]
    have hall : ∀ cp ∈ cps, cp.captured = false := by
      intro cp hcp
      cases hc : cp.captured
      · rfl
      · exact absurd (ht.mpr ⟨cp, hcp, hc⟩) h1
    refine ⟨iff_of_true rfl hall, iff_of_false (by decide) ?_, iff_of_false (by decide) ?_⟩
    · rintro ⟨⟨cpt, hcpt, hct⟩, -⟩
      have h := hall cpt hcpt
      rw [h] at hct
      cases hct
    · rintro ⟨⟨cpt, hcpt, hct⟩, -⟩
      have h := hall cpt hcpt
      rw [h] at hct
      cases hct

/-- Claim C2 (confirmed): after the turn counter is incremented, a
player-owned, non-carrier, non-LHA control point with strength in [0, 1]
gains +0.2 strength clamped to 1.0 when `no_action` is false and the new
counter exceeds 1, and loses 0.2 strength clamped to 0.0 otherwise. -/
theorem pass_turn_strength_player_land (turn : Nat) (no_action : Bool)
    (cps : List ControlPoint) (i : Nat) (hi : i < cps.length)
    (hcap : (cps.get ⟨i, hi⟩).captured = true)
    (hcar : (cps.get ⟨i, hi⟩).is_carrier = false)
    (hlha : (cps.get ⟨i, hi⟩).is_lha = false)
    (h0 : 0 ≤ (cps.get ⟨i, hi⟩).strength)
    (h1 : (cps.get ⟨i, hi⟩).strength ≤ 1) :
    ((pass_turn_strength turn no_action cps).2[i]?.map (fun cp => cp.strength)) =
      some (if no_action = false ∧ turn + 1 > 1
            then min 1 ((cps.get ⟨i, hi⟩).strength + 1/5)
            else max 0 ((cps.get ⟨i, hi⟩).strength - 1/5)) := by
  unfold pass_turn_strength
  set cp := cps.get ⟨i, hi⟩ with hcpdef
  have hget : cps[i]? = some cp := by
    rw [List.getElem?_eq_getElem hi]
    rfl
  by_cases hb : no_action = false ∧ turn + 1 > 1
  · rw [if_pos hb, if_pos hb]
    simp only [List.getElem?_map, hget, Option.map_some', hcap, eq_self_iff_true,
      if_true, ite_true, Option.some.injEq]
    unfold affect_strength PLAYER_BASE_STRENGTH_RECOVERY
    rw [max_eq_right (le_min (by norm_num) (by linarith))]
  · rw [if_neg hb, if_neg hb]
    simp only [List.getElem?_map, hget, Option.map_some', hcap, hcar, hlha,
      eq_self_iff_true, and_self, if_true, ite_true, Option.some.injEq]
    unfold affect_strength PLAYER_BASE_STRENGTH_RECOVERY
    rw [← sub_eq_add_neg, min_eq_right (by linarith)]

/-- Claim C2 witness: at turn counter 2 (`turn = 1` before the increment) with
`no_action = false`, a player-owned land base at strength 0.9 ends at
strength 1.0, clamped. -/
theorem pass_turn_strength_player_land_witness :
    ((pass_turn_strength 1 false [cpStrengthEx]).2[0]?.map (fun cp => cp.strength)) =
      some 1 := by
  have h := pass_turn_strength_player_land 1 false [cpStrengthEx] 0
    (by norm_num) rfl rfl rfl (by norm_num [cpStrengthEx]) (by norm_num [cpStrengthEx])
  rw [h, if_pos ⟨rfl, by norm_num⟩]
  norm_num [cpStrengthEx]

/-- Claim C9 (confirmed): in the strength-recovery branch (`no_action` false
and incremented counter above 1), the +0.2 gain is applied to every
player-owned control point, carriers and LHAs included; in the other branch a
player-owned carrier or LHA is left unchanged (the carrier/LHA exclusion only
exists in the strength-loss branch). -/
theorem pass_turn_strength_carrier (turn : Nat) (no_action : Bool)
    (cps : List ControlPoint) (i : Nat) (hi : i < cps.length)
    (hcap : (cps.get ⟨i, hi⟩).captured = true)
    (hcl : (cps.get ⟨i, hi⟩).is_carrier = true ∨ (cps.get ⟨i, hi⟩).is_lha = true) :
    ((pass_turn_strength turn no_action cps).2[i]?.map (fun cp => cp.strength)) =
      some (if no_action = false ∧ turn + 1 > 1
            then affect_strength (cps.get ⟨i, hi⟩).strength PLAYER_BASE_STRENGTH_RECOVERY
            else (cps.get ⟨i, hi⟩).strength) := by
  unfold pass_turn_strength
  set cp := cps.get ⟨i, hi⟩ with hcpdef
  have hget : cps[i]? = some cp := by
    rw [List.getElem?_eq_getElem hi]
    rfl
  by_cases hb : no_action = false ∧ turn + 1 > 1
  · rw [if_pos hb, if_pos hb]
    simp only [List.getElem?_map, hget, Option.map_some', hcap, eq_self_iff_true,
      if_true, ite_true]
  · rw [if_neg hb, if_neg hb]
    have hcond : ¬(cp.captured = true ∧ cp.is_carrier = false ∧ cp.is_lha = false) := by
      rintro ⟨-, hc, hl⟩
      rcases hcl with h | h
      · rw [h] at hc
        cases hc
      · rw [h] at hl
        cases hl
    simp only [List.getElem?_map, hget, Option.map_some', hcond, if_false,
      ite_false, not_false_iff]

/-- Claim C9 witness: at turn counter 2 with `no_action = false`, a
player-owned carrier at strength 0.5 gains +0.2 (to 0.7) even though it is a
carrier. -/
theorem pass_turn_strength_carrier_witness :
    ((pass_turn_strength 1 false [cpCarrierEx]).2[0]?.map (fun cp => cp.strength)) =
      some (7/10) := by
  have h := pass_turn_strength_carrier 1 false [cpCarrierEx] 0
    (by norm_num) rfl (Or.inl rfl)
  rw [h, if_pos ⟨rfl, by norm_num⟩]
  unfold affect_strength PLAYER_BASE_STRENGTH_RECOVERY cpCarrierEx
  norm_num

theorem find_location_aux_some_elim (on_ground : Bool) (near : Point)
    (theater : Theater) (pfh : Point → Nat → Point)
    (others : List TheaterGroundObject) (is_base_defense : Bool)
    (draws : Nat → Point) (fuel k : Nat) (p : Point)
    (h : find_location_aux on_ground near theater pfh others is_base_defense draws fuel k = some p) :
    ∃ i, i < fuel ∧ p = draws (k + i) ∧
      candidate_ok on_ground near theater pfh others is_base_defense p = true ∧
      ∀ j, j < i →
        candidate_ok on_ground near theater pfh others is_base_defense (draws (k + j)) = false := by
  induction fuel generalizing k with
  | zero => simp [find_location_aux] at h
  | succ n ih =>
    rw [find_location_aux] at h
    by_cases hc : candidate_ok on_ground near theater pfh others is_base_defense (draws k) = true
    · rw [if_pos hc] at h
      refine ⟨0, Nat.succ_pos n, ?_, ?_, fun j hj => absurd hj (Nat.not_lt_zero j)⟩
      · rw [Nat.add_zero]
        exact (Option.some.inj h).symm
      · rw [Option.some.inj h] at hc
        exact hc
    · rw [if_neg hc] at h
      obtain ⟨i, hi, hp, hok, hmin⟩ := ih (k + 1) h
      refine ⟨i + 1, Nat.succ_lt_succ hi, ?_, hok, ?_⟩
      · rw [hp]
        congr 1
        omega
      · intro j hj
        match j with
        | 0 =>
          rw [Nat.add_zero]
          exact Bool.eq_false_iff.mpr hc
        | j' + 1 =>
          have := hmin j' (by omega)
          rw [show k + (j' + 1) = k + 1 + j' from by omega]
          exact this

theorem find_location_aux_none_iff (on_ground : Bool) (near : Point)
    (theater : Theater) (pfh : Point → Nat → Point)
    (others : List TheaterGroundObject) (is_base_defense : Bool)
    (draws : Nat → Point) (fuel k : Nat) :
    find_location_aux on_ground near theater pfh others is_base_defense draws fuel k = none ↔
      ∀ i, i < fuel →
        candidate_ok on_ground near theater pfh others is_base_defense (draws (k + i)) = false := by
  induction fuel generalizing k with
  | zero => simp [find_location_aux]
  | succ n ih =>
    rw [find_location_aux]
    by_cases hc : candidate_ok on_ground near theater pfh others is_base_defense (draws k) = true
    · rw [if_pos hc]
      constructor
      · intro h
        cases h
      · intro h
        have := h 0 (Nat.succ_pos n)
        rw [Nat.add_zero] at this
        rw [hc] at this
        cases this
    · rw [if_neg hc]
      rw [ih (k + 1)]
      constructor
      · intro h i hi
        match i with
        | 0 =>
          rw [Nat.add_zero]
          exact Bool.eq_false_iff.mpr hc
        | i' + 1 =>
          have := h i' (by omega)
          rw [show k + (i' + 1) = k + 1 + i' from by omega]
          exact this
      · intro h i hi
        have := h (i + 1) (by omega)
        rw [show k + (i + 1) = k + 1 + i from by omega] at this
        exact this

theorem find_location_aux_congr (on_ground : Bool) (near : Point)
    (theater : Theater) (pfh : Point → Nat → Point)
    (others : List TheaterGroundObject) (is_base_defense : Bool)
    (draws draws2 : Nat → Point) (fuel k : Nat)
    (h : ∀ i, k ≤ i → i < k + fuel → draws i = draws2 i) :
    find_location_aux on_ground near theater pfh others is_base_defense draws fuel k =
      find_location_aux on_ground near theater pfh others is_base_defense draws2 fuel k := by
  induction fuel generalizing k with
  | zero => rfl
  | succ n ih =>
    rw [find_location_aux, find_location_aux]
    rw [h k (Nat.le_refl k) (by omega)]
    by_cases hc : candidate_ok on_ground near theater pfh others is_base_defense (draws2 k) = true
    · rw [if_pos hc, if_pos hc]
    · rw [if_neg hc, if_neg hc]
      exact ih (k + 1) (fun i h1 h2 => h i (by omega) (by omega))

/-- Claim C3 (confirmed): any point returned by `find_location` is at
distance at least 10000 (i.e. squared distance at least 10000²) from every
element of `others`, and, when `is_base_defense` is false, at distance at
least 30000 from every control point whose position differs from `near` and
at least 10000 from every ground object of every such control point. -/
theorem find_location_separation (on_ground : Bool) (near : Point)
    (theater : Theater) (min_range max_range : ℚ)
    (others : List TheaterGroundObject) (is_base_defense : Bool)
    (pfh : Point → Nat → Point) (draws : Nat → Point) (p : Point)
    (h : find_location on_ground near theater min_range max_range others
          is_base_defense pfh draws = some p) :
    (∀ o ∈ others, 10000 * 10000 ≤ distSq o.position p) ∧
    (is_base_defense = false →
      ∀ cp ∈ theater.controlpoints, cp.position ≠ near →
        30000 * 30000 ≤ distSq cp.position p ∧
        ∀ go ∈ cp.ground_objects, 10000 * 10000 ≤ distSq go.position p) := by
  unfold find_location at h
  obtain ⟨i, -, -, hok, -⟩ :=
    find_location_aux_some_elim on_ground near theater pfh others is_base_defense
      draws 300 0 p h
  unfold candidate_ok at hok
  simp only [Bool.and_eq_true] at hok
  obtain ⟨⟨⟨-, -⟩, hothers⟩, hcps⟩ := hok
  constructor
  · intro o ho
    unfold others_ok at hothers
    rw [List.all_eq_true] at hothers
    have ho2 := hothers o ho
    simp only [Bool.not_eq_true', decide_eq_false_iff_not, not_lt] at ho2
    exact ho2
  · intro hbd cp hcp hne
    unfold control_points_ok at hcps
    rw [hbd] at hcps
    simp only [Bool.false_or, List.all_eq_true] at hcps
    have hcp2 := hcps cp hcp
    rw [if_neg hne] at hcp2
    simp only [Bool.and_eq_true, Bool.not_eq_true', decide_eq_false_iff_not,
      not_lt, List.all_eq_true] at hcp2
    exact hcp2

/-- Claim C3 witness: on an unconstrained all-land theater the first draw (the
origin) is returned, and the separation conclusions hold (vacuously, there
being no other installations and no control points). -/
theorem find_location_separation_witness :
    (∀ o ∈ ([] : List TheaterGroundObject),
        10000 * 10000 ≤ distSq o.position ⟨0, 0⟩) ∧
    (false = false →
      ∀ cp ∈ landTheaterEx.controlpoints, cp.position ≠ ⟨0, 0⟩ →
        30000 * 30000 ≤ distSq cp.position ⟨0, 0⟩ ∧
        ∀ go ∈ cp.ground_objects, 10000 * 10000 ≤ distSq go.position ⟨0, 0⟩) :=
  find_location_separation true ⟨0, 0⟩ landTheaterEx 10000 40000 [] false
    (fun p _ => p) (fun _ => ⟨0, 0⟩) ⟨0, 0⟩ rfl

/-- Claim C4 (confirmed): `find_location` consumes at most the first 300
draws (its result is unchanged when two draw streams agree on them, and
termination is the structural fuel of `find_location_aux`); it returns the
first surviving candidate immediately; and it returns `none` exactly when all
300 draws fail — in particular whenever no valid candidate exists at all. -/
theorem find_location_bounded (on_ground : Bool) (near : Point)
    (theater : Theater) (min_range max_range : ℚ)
    (others : List TheaterGroundObject) (is_base_defense : Bool)
    (pfh : Point → Nat → Point) (draws draws2 : Nat → Point) :
    (find_location on_ground near theater min_range max_range others
        is_base_defense pfh draws = none ↔
      ∀ i, i < 300 →
        candidate_ok on_ground near theater pfh others is_base_defense (draws i) = false) ∧
    (∀ p, find_location on_ground near theater min_range max_range others
        is_base_defense pfh draws = some p →
      ∃ i, i < 300 ∧ p = draws i ∧
        candidate_ok on_ground near theater pfh others is_base_defense p = true ∧
        ∀ j, j < i →
          candidate_ok on_ground near theater pfh others is_base_defense (draws j) = false) ∧
    ((∀ i, i < 300 → draws i = draws2 i) →
      find_location on_ground near theater min_range max_range others
          is_base_defense pfh draws =
        find_location on_ground near theater min_range max_range others
          is_base_defense pfh draws2) := by
  refine ⟨?_, ?_, ?_⟩
  · unfold find_location
    have h := find_location_aux_none_iff on_ground near theater pfh others
      is_base_defense draws 300 0
    simpa using h
  · intro p hp
    unfold find_location at hp
    obtain ⟨i, hi, h1, h2, h3⟩ :=
      find_location_aux_some_elim on_ground near theater pfh others
        is_base_defense draws 300 0 p hp
    exact ⟨i, hi, by simpa using h1, h2, fun j hj => by simpa using h3 j hj⟩
  · intro hag
    unfold find_location
    exact find_location_aux_congr on_ground near theater pfh others
      is_base_defense draws draws2 300 0 (fun i h1 h2 => hag i (by omega))

/-- Claim C4 witness: a land placement on an all-sea theater fails every one
of the 300 draws, and `find_location` returns `none`. -/
theorem find_location_bounded_witness :
    find_location true ⟨0, 0⟩ seaTheaterEx 10000 40000 [] false
      (fun p _ => p) (fun _ => ⟨0, 0⟩) = none :=
  (find_location_bounded true ⟨0, 0⟩ seaTheaterEx 10000 40000 [] false
    (fun p _ => p) (fun _ => ⟨0, 0⟩) (fun _ => ⟨0, 0⟩)).1.mpr (fun _ _ => rfl)

/-- Claim C5 (code_bug): the guard in `populate_red_airbase` can never fire:
whenever the configured low bound is below the high bound (as both the
constants' names and the guard's own error message "CP importance must be
between {IMPORTANCE_LOW} and {IMPORTANCE_HIGH}" require), the chained
comparison `IMPORTANCE_HIGH <= importance <= IMPORTANCE_LOW` is
unsatisfiable, so an out-of-bounds importance never aborts generation. -/
theorem populate_red_airbase_guard_dead (low high importance : ℚ)
    (h : low < high) :
    populate_red_airbase_raises low high importance = false := by
  unfold populate_red_airbase_raises
  by_cases h1 : high ≤ importance
  · have h2 : ¬importance ≤ low := by linarith
    simp [h1, h2]
  · simp [h1]

/-- Claim C5 witness: with bounds low = 1 and high = 1.2, the importance 5
lies outside the bounds (the spec's check fires) yet the code's guard does
not raise. -/
theorem populate_red_airbase_guard_dead_witness :
    populate_red_airbase_raises 1 (6/5) 5 = false ∧
    importance_out_of_bounds 1 (6/5) 5 = true := by
  constructor
  · exact populate_red_airbase_guard_dead 1 (6/5) 5 (by norm_num)
  · have h : decide ((5:ℚ) ≤ 6/5) = false := by
      rw [decide_eq_false_iff_not]
      norm_num
    unfold importance_out_of_bounds
    rw [h, Bool.and_false]
    rfl

/-- Claim C6, counterexample: a carrier control point whose faction has a
carrier name but whose carrier group generation fails (the external generator
returns nothing) still reports success, so `GroundObjectGenerator.generate`
keeps it in the theater — the claim's "cannot be generated covers the group
generation/placement itself failing" is false. -/
theorem carrier_generate_failed_group_cex :
    (carrier_generator_generate ["Nimitz"] none ⟨0, 0⟩ []).1 = true ∧
    ground_object_generator_generate
      (fun _ => (carrier_generator_generate ["Nimitz"] none ⟨0, 0⟩ []).1)
      [cpCarrierEx] = [cpCarrierEx] :=
  ⟨rfl, rfl⟩

/-- Claim C6, amended: a carrier (resp. LHA) control point's generator
returns false — and `GroundObjectGenerator.generate` then removes the point
from the theater — iff the faction defines no carrier (resp.
helicopter-carrier) names; when a name exists but the group generation fails
the control point is kept, with a carrier object whose `groups` list is
empty. -/
theorem carrier_lha_removal (carrier_names lha_names : List String)
    (group : Option UnitGroup) (gpos : Point) (gos : List TheaterGroundObject)
    (genResult : ControlPoint → Bool) (cps : List ControlPoint)
    (cp : ControlPoint) :
    ((carrier_generator_generate carrier_names group gpos gos).1 = false ↔
      carrier_names = []) ∧
    ((lha_generator_generate lha_names group gpos gos).1 = false ↔
      lha_names = []) ∧
    (cp ∈ ground_object_generator_generate genResult cps ↔
      cp ∈ cps ∧ genResult cp = true) ∧
    (carrier_names ≠ [] →
      (carrier_generator_generate carrier_names none gpos gos).2 =
        gos ++ [{ kind := GroundObjectKind.carrier, position := gpos,
                  groups := [] }]) := by
  refine ⟨?_, ?_, ?_, ?_⟩
  · unfold carrier_generator_generate
    by_cases h : carrier_names = []
    · rw [if_pos h]
      simp [h]
    · rw [if_neg h]
      simp [h]
  · unfold lha_generator_generate
    by_cases h : lha_names = []
    · rw [if_pos h]
      simp [h]
    · rw [if_neg h]
      simp [h]
  · unfold ground_object_generator_generate
    simp [List.mem_filter]
  · intro hne
    unfold carrier_generator_generate
    rw [if_neg hne]

/-- Claim C6 witness: with the carrier name present and the group generation
failing, the appended carrier object has no groups (and, per the
counterexample, the control point is kept). -/
theorem carrier_lha_removal_witness :
    (carrier_generator_generate ["Nimitz"] none ⟨0, 0⟩ []).2 =
      [{ kind := GroundObjectKind.carrier, position := ⟨0, 0⟩, groups := [] }] :=
  (carrier_lha_removal ["Nimitz"] [] none ⟨0, 0⟩ [] (fun _ => true) []
    cpCarrierEx).2.2.2 (by decide)

/-- Claim C7, counterexample: with a valid point found and a unit-group
generator returning nothing, the AA site is appended with `groups = []`, but
the ship and the missile site are not appended at all — contradicting the
claim that every installation with a valid point is appended. -/
theorem installation_append_cex :
    generate_ship (some ⟨0, 0⟩) none [] = [] ∧
    generate_missile_site (some ⟨0, 0⟩) none [] = [] ∧
    generate_aa_site (some ⟨0, 0⟩) none [] =
      [{ kind := GroundObjectKind.sam, position := ⟨0, 0⟩, groups := [] }] :=
  ⟨rfl, rfl, rfl⟩

/-- Claim C7, amended: when no valid point is found all three generators
leave the ground-object list untouched; when a point is found the AA site is
appended even with no unit group, while the ship and the missile site are
appended only when their unit-group generator returns a group. -/
theorem installation_append_behavior (p : Point) (gr : UnitGroup)
    (group : Option UnitGroup) (gos : List TheaterGroundObject) :
    generate_aa_site none group gos = gos ∧
    generate_ship none group gos = gos ∧
    generate_missile_site none group gos = gos ∧
    generate_aa_site (some p) none gos =
      gos ++ [{ kind := GroundObjectKind.sam, position := p, groups := [] }] ∧
    generate_aa_site (some p) (some gr) gos =
      gos ++ [{ kind := GroundObjectKind.sam, position := p, groups := [gr] }] ∧
    generate_ship (some p) none gos = gos ∧
    generate_ship (some p) (some gr) gos =
      gos ++ [{ kind := GroundObjectKind.ship, position := p, groups := [gr] }] ∧
    generate_missile_site (some p) none gos = gos ∧
    generate_missile_site (some p) (some gr) gos =
      gos ++ [{ kind := GroundObjectKind.missile, position := p, groups := [gr] }] :=
  ⟨rfl, rfl, rfl, rfl, rfl, rfl, rfl, rfl, rfl⟩

/-- Claim C8, counterexample: at index 1 the draws (1, 1) — a failed SAM coin
followed by a successful SHORAD roll — produce a SHORAD group, which the
claim says index 1 can never yield ("SAM or armor with equal probability and
nothing else"). Both draws are within the ranges of `randint(0, 1)` and
`randint(0, 2)`. -/
theorem airbase_defense_group_index1_cex :
    generate_airbase_defense_group 1 1 1 = DefenseGroupKind.shorad ∧
    DefenseGroupKind.shorad ≠ DefenseGroupKind.sam ∧
    DefenseGroupKind.shorad ≠ DefenseGroupKind.armor := by
  decide

set_option linter.unusedVariables false in
/-- Claim C8, amended: index 0 always yields armor; index 1 yields SAM when
the coin `randint(0,1)` is 0 and otherwise falls through to the SHORAD roll —
over the 6 equally likely draw pairs that is SAM with probability 1/2 (3 of
6), SHORAD with probability 1/6 (1 of 6) and armor with probability 1/3
(2 of 6); indices 2 and above yield SHORAD iff `randint(0,2) = 1`
(probability 1/3), else armor. -/
theorem airbase_defense_group_content (id d1 d2 : Nat)
    (h1 : d1 < 2) (h2 : d2 < 3) :
    (id = 0 → generate_airbase_defense_group id d1 d2 = DefenseGroupKind.armor) ∧
    (id = 1 → generate_airbase_defense_group id d1 d2 =
      (if d1 = 0 then DefenseGroupKind.sam
       else if d2 = 1 then DefenseGroupKind.shorad
       else DefenseGroupKind.armor)) ∧
    (2 ≤ id → generate_airbase_defense_group id d1 d2 =
      (if d2 = 1 then DefenseGroupKind.shorad else DefenseGroupKind.armor)) ∧
    ((Finset.range 2 ×ˢ Finset.range 3).filter
      (fun d => generate_airbase_defense_group 1 d.1 d.2 = DefenseGroupKind.sam)).card = 3 ∧
    ((Finset.range 2 ×ˢ Finset.range 3).filter
      (fun d => generate_airbase_defense_group 1 d.1 d.2 = DefenseGroupKind.shorad)).card = 1 ∧
    ((Finset.range 2 ×ˢ Finset.range 3).filter
      (fun d => generate_airbase_defense_group 1 d.1 d.2 = DefenseGroupKind.armor)).card = 2 := by
  refine ⟨?_, ?_, ?_, by decide, by decide, by decide⟩
  · intro h
    subst h
    rfl
  · intro h
    subst h
    by_cases hd1 : d1 = 0
    · simp [generate_airbase_defense_group, hd1]
    · simp [generate_airbase_defense_group, hd1]
  · intro h
    unfold generate_airbase_defense_group
    rw [if_neg (by omega), if_neg (by rintro ⟨h1', -⟩; omega)]

/-- Claim C8 witness: index 2 with draws (0, 1) yields a SHORAD group. -/
theorem airbase_defense_group_content_witness :
    generate_airbase_defense_group 2 0 1 = DefenseGroupKind.shorad := by
  have h := (airbase_defense_group_content 2 0 1 (by norm_num)
    (by norm_num)).2.2.1 (by norm_num)
  simpa using h

theorem culling_default_ne_nil (l : List Point) :
    (if l.isEmpty then ([⟨0, 0⟩] : List Point) else l) ≠ [] := by
  cases l with
  | nil => simp
  | cons a t => simp

/-- Claim C10 (confirmed): `compute_conflicts_position` always returns a
non-empty list; and when no front line exists, no carrier/LHA point is
contributed (the setting is off or no such point exists), no close
opposing-bases pair is found and every package is BARCAP, the result is
exactly the single default point (0, 0). -/
theorem compute_conflicts_position_nonempty
    (conflicts : List (ControlPoint × ControlPoint))
    (frontline_position : ControlPoint → ControlPoint → Point)
    (do_not_cull_carrier : Bool) (cps : List ControlPoint)
    (packages : List Package) :
    compute_conflicts_position conflicts frontline_position do_not_cull_carrier
      cps packages ≠ [] ∧
    (conflicts = [] →
     (do_not_cull_carrier = true →
       cps.filter (fun cp => cp.is_carrier || cp.is_lha) = []) →
     find_close_pair (player_points cps) (enemy_points cps) = none →
     packages.filter (fun pkg => !pkg.is_barcap) = [] →
     compute_conflicts_position conflicts frontline_position do_not_cull_carrier
       cps packages = [⟨0, 0⟩]) := by
  constructor
  · unfold compute_conflicts_position
    apply culling_default_ne_nil
  · intro h1 h2 h3 h4
    subst h1
    unfold compute_conflicts_position nearest_pair_points
    rw [h3, h4]
    cases hdc : do_not_cull_carrier
    · simp [hdc]
    · rw [h2 hdc]
      simp [hdc]

/-- Claim C10 witness: with no conflicts, the carrier setting off, no control
points and no packages, the culling list is the single default point. -/
theorem compute_conflicts_position_nonempty_witness :
    compute_conflicts_position [] (fun _ _ => ⟨0, 0⟩) false [] [] = [⟨0, 0⟩] :=
  (compute_conflicts_position_nonempty [] (fun _ _ => ⟨0, 0⟩) false [] []).2
    rfl (fun _ => rfl) rfl rfl

end DCSRetribution
